import Mathlib

/-!
Verification of the signal-migration replacement-generation pass
(`pass6__migrateInputDeclarations` in
`packages/core/schematics/migrations/signal-migration/src/passes/6_migrate_input_declarations.ts`).

The pass iterates the registry of already-classified `@Input()` declarations
(`result.sourceInputs`).  For each declaration it either takes the skip path
(incompatible: optionally append TODO edits, record the owning file in the
"has unmigrated" set) or the migrate path (compatible: assert metadata is
present and the node is not an accessor, append one full-replacement edit with
the synthesized text, record the owning file in the "has migrated" set).
Afterwards a second loop removes the legacy `Input` import from every file
that has migrated declarations and no unmigrated ones.

External collaborators (the classifier verdict `isIncompatible`, the TODO
producer `insertTodoForIncompatibility`, and the text synthesizer
`convertToSignalInput`) are modelled as function parameters, per their
contracts: the synthesizer returns replacement text and may register new
new import bindings; the TODO producer returns edits.  Source files are
identified by natural numbers; `assert` failures are modelled with `Except`.
-/

namespace SignalMigration

/-- A `TextUpdate` from the tsurge utilities: a character range in the
original file together with the replacement text. -/
structure TextUpdate where
  position : Nat
  endPos : Nat
  toInsert : String
deriving Repr, DecidableEq

/-- A `Replacement`: one edit, targeting one project file. -/
structure Replacement where
  projectFile : Nat
  update : TextUpdate
deriving Repr, DecidableEq

/-- The slice of a `ts.Node` the pass looks at: its source file (the
declaration's owning file), its start and end offsets, and whether it is an
accessor (get/set) form (`ts.isAccessor`). -/
structure InputNode where
  sourceFile : Nat
  startPos : Nat
  endPos : Nat
  isAccessor : Bool
deriving Repr, DecidableEq

/-- One registry entry key: an input descriptor wrapping its node. -/
structure InputDescriptor where
  node : InputNode
deriving Repr, DecidableEq

/-- Metadata of a compatible declaration, opaque to this pass: it is only
handed on to the text synthesizer.  Modelled as a token. -/
abbrev Metadata := Nat

/-- The observable state of the external Import Manager: the bindings
registered through it (by the text synthesizer) and the remove-import
commands issued to it.  `removeImport(file, symbol, module)` commands are
recorded in issue order. -/
structure ImportManagerState where
  registered : List (Nat × String × String)
  removals : List (Nat × String × String)
deriving Repr, DecidableEq

/-- The recognized configuration of the pass (`host.config`). -/
structure Config where
  insertTodosForSkippedFields : Bool
deriving Repr, DecidableEq

/-- The state mutated by the pass: the accumulated replacement edits, the
Import Manager, and the two per-file tracking sets
(`filesWithMigratedInputs`, a `Set<ts.SourceFile>`, and
`filesWithIncompatibleInputs`, a `WeakSet<ts.SourceFile>`), modelled as
insertion-ordered duplicate-free lists. -/
structure Pass6State where
  replacements : List Replacement
  importMgr : ImportManagerState
  filesWithMigratedInputs : List Nat
  filesWithIncompatibleInputs : List Nat
deriving Repr, DecidableEq

/-- JavaScript `Set.prototype.add`: append the element if it is absent. -/
def setAdd (s : List Nat) (x : Nat) : List Nat :=
  if x ∈ s then s else s ++ [x]

/-- The classifier verdict (`knownInputs.get(input)!.isIncompatible()`). -/
abbrev Classifier := InputDescriptor → Bool

/-- Contract of `insertTodoForIncompatibility`: edits marking the skipped
declaration. -/
abbrev TodoProducer := InputDescriptor → List Replacement

/-- Contract of `convertToSignalInput`: the synthesized replacement text
together with the import bindings the synthesizer registers. -/
abbrev Synthesizer := InputNode → Metadata → String × List (Nat × String × String)

/-- The body of the first loop of `pass6__migrateInputDeclarations` for one
registry entry `(input, metadata)`:

  - incompatible input: push the TODO edits when
    `host.insertTodosForSkippedFields` is set, add the owning file to
    `filesWithIncompatibleInputs`, and continue;
  - otherwise assert `metadata !== null` and `!ts.isAccessor(input.node)`
    (modelled as `Except.error`), add the owning file to
    `filesWithMigratedInputs`, and push one `Replacement` spanning
    `input.node.getStart() .. input.node.getEnd()` with the text returned by
    `convertToSignalInput` (whose import registrations are recorded). -/
def pass6Step (host : Config) (isIncompatible : Classifier)
    (insertTodoForIncompatibility : TodoProducer)
    (convertToSignalInput : Synthesizer)
    (st : Pass6State) (entry : InputDescriptor × Option Metadata) :
    Except String Pass6State :=
  let input := entry.1
  let metadata := entry.2
  let sf := input.node.sourceFile
  if isIncompatible input then
    let todos := if host.insertTodosForSkippedFields
      then insertTodoForIncompatibility input else []
    .ok { st with
      replacements := st.replacements ++ todos,
      filesWithIncompatibleInputs := setAdd st.filesWithIncompatibleInputs sf }
  else
    match metadata with
    | none => .error "Expected metadata to exist for input that is not marked incompatible."
    | some m =>
      if input.node.isAccessor then
        .error "Accessor inputs are incompatible."
      else
        let conv := convertToSignalInput input.node m
        .ok { st with
          filesWithMigratedInputs := setAdd st.filesWithMigratedInputs sf,
          replacements := st.replacements ++
            [⟨sf, ⟨input.node.startPos, input.node.endPos, conv.1⟩⟩],
          importMgr := { st.importMgr with
            registered := st.importMgr.registered ++ conv.2 } }

/-- The first loop of the pass: fold `pass6Step` over the registry in
iteration order, propagating assertion failures. -/
def pass6Loop (host : Config) (isIncompatible : Classifier)
    (insertTodoForIncompatibility : TodoProducer)
    (convertToSignalInput : Synthesizer) :
    Pass6State → List (InputDescriptor × Option Metadata) →
    Except String Pass6State
  | st, [] => .ok st
  | st, e :: rest =>
    match pass6Step host isIncompatible insertTodoForIncompatibility
        convertToSignalInput st e with
    | .error err => .error err
    | .ok st' =>
      pass6Loop host isIncompatible insertTodoForIncompatibility
        convertToSignalInput st' rest

/-- The second loop of the pass: for every file in
`filesWithMigratedInputs` that is not in `filesWithIncompatibleInputs`,
issue `importManager.removeImport(file, 'Input', '@angular/core')`. -/
def pass6ImportPass (st : Pass6State) : Pass6State :=
  { st with importMgr := { st.importMgr with
      removals := st.importMgr.removals ++
        ((st.filesWithMigratedInputs.filter
            (fun f => ! st.filesWithIncompatibleInputs.contains f)).map
          (fun f => (f, "Input", "@angular/core"))) } }

/-- The initial state of a run: both tracking sets start empty
(`new Set()` / `new WeakSet()`), no edits pushed yet by this pass, and the
Import Manager in its incoming state. -/
def pass6Init (importManager : ImportManagerState) : Pass6State :=
  { replacements := [], importMgr := importManager,
    filesWithMigratedInputs := [], filesWithIncompatibleInputs := [] }

/-- `pass6__migrateInputDeclarations`: phase 1 (per-declaration loop) over
the whole registry, then phase 2 (per-file import decisions). -/
def pass6__migrateInputDeclarations (host : Config)
    (isIncompatible : Classifier)
    (insertTodoForIncompatibility : TodoProducer)
    (convertToSignalInput : Synthesizer)
    (sourceInputs : List (InputDescriptor × Option Metadata))
    (importManager : ImportManagerState) : Except String Pass6State :=
  (pass6Loop host isIncompatible insertTodoForIncompatibility
      convertToSignalInput (pass6Init importManager) sourceInputs).map
    pass6ImportPass

/-! Specification-side helper definitions, used to state the theorems. -/

/-- A registry entry on which neither assertion of the migrate path fires:
either the entry is incompatible (skip path), or its metadata is present and
its node is not an accessor. -/
def entryOk (isIncompatible : Classifier)
    (e : InputDescriptor × Option Metadata) : Bool :=
  isIncompatible e.1 || (e.2.isSome && ! e.1.node.isAccessor)

/-- The replacement edits one registry entry contributes: the TODO edits
(when enabled) on the skip path, the single full-replacement edit on the
migrate path. -/
def declContribution (host : Config) (isIncompatible : Classifier)
    (insertTodoForIncompatibility : TodoProducer)
    (convertToSignalInput : Synthesizer)
    (e : InputDescriptor × Option Metadata) : List Replacement :=
  if isIncompatible e.1 then
    (if host.insertTodosForSkippedFields
      then insertTodoForIncompatibility e.1 else [])
  else
    match e.2 with
    | none => []
    | some m =>
      [⟨e.1.node.sourceFile,
        ⟨e.1.node.startPos, e.1.node.endPos, (convertToSignalInput e.1.node m).1⟩⟩]

/-- The import bindings one registry entry causes the synthesizer to
register: none on the skip path. -/
def declRegs (isIncompatible : Classifier)
    (convertToSignalInput : Synthesizer)
    (e : InputDescriptor × Option Metadata) : List (Nat × String × String) :=
  if isIncompatible e.1 then []
  else
    match e.2 with
    | none => []
    | some m => (convertToSignalInput e.1.node m).2

/-- The "has migrated" file set after processing a list of entries, starting
from `acc`. -/
def migratedFilesAfter (isIncompatible : Classifier) :
    List Nat → List (InputDescriptor × Option Metadata) → List Nat
  | acc, [] => acc
  | acc, e :: es =>
    migratedFilesAfter isIncompatible
      (if isIncompatible e.1 then acc else setAdd acc e.1.node.sourceFile) es

/-- The "has unmigrated" file set after processing a list of entries,
starting from `acc`. -/
def incompatFilesAfter (isIncompatible : Classifier) :
    List Nat → List (InputDescriptor × Option Metadata) → List Nat
  | acc, [] => acc
  | acc, e :: es =>
    incompatFilesAfter isIncompatible
      (if isIncompatible e.1 then setAdd acc e.1.node.sourceFile else acc) es

/-! Basic lemmas about the set model and the two folds. -/

theorem mem_setAdd {s : List Nat} {x y : Nat} :
    y ∈ setAdd s x ↔ y ∈ s ∨ y = x := by
  unfold setAdd
  split <;> simp_all

theorem nodup_setAdd {s : List Nat} {x : Nat} (h : s.Nodup) :
    (setAdd s x).Nodup := by
  unfold setAdd
  split
  · exact h
  · simpa [List.nodup_append] using ⟨h, by assumption⟩

theorem mem_migratedFilesAfter (isIncompatible : Classifier)
    (inputs : List (InputDescriptor × Option Metadata)) (acc : List Nat)
    (f : Nat) :
    f ∈ migratedFilesAfter isIncompatible acc inputs ↔
      f ∈ acc ∨ ∃ e ∈ inputs, isIncompatible e.1 = false ∧
        e.1.node.sourceFile = f := by
  induction inputs generalizing acc with
  | nil => simp [migratedFilesAfter]
  | cons e es ih =>
    by_cases hinc : isIncompatible e.1 = true
    · simp only [migratedFilesAfter, hinc, if_true, ih, List.mem_cons]
      constructor
      · rintro (h | ⟨x, hx, hx2⟩)
        · exact Or.inl h
        · exact Or.inr ⟨x, Or.inr hx, hx2⟩
      · rintro (h | ⟨x, (rfl | hx), hx2⟩)
        · exact Or.inl h
        · simp [hinc] at hx2
        · exact Or.inr ⟨x, hx, hx2⟩
    · simp only [Bool.not_eq_true] at hinc
      simp only [migratedFilesAfter, hinc, if_false, Bool.false_eq_true, ih,
        mem_setAdd, List.mem_cons]
      constructor
      · rintro ((h | rfl) | ⟨x, hx, hx2⟩)
        · exact Or.inl h
        · exact Or.inr ⟨e, Or.inl rfl, hinc, rfl⟩
        · exact Or.inr ⟨x, Or.inr hx, hx2⟩
      · rintro (h | ⟨x, (rfl | hx), hx1, hx2⟩)
        · exact Or.inl (Or.inl h)
        · exact Or.inl (Or.inr hx2.symm)
        · exact Or.inr ⟨x, hx, hx1, hx2⟩

theorem mem_incompatFilesAfter (isIncompatible : Classifier)
    (inputs : List (InputDescriptor × Option Metadata)) (acc : List Nat)
    (f : Nat) :
    f ∈ incompatFilesAfter isIncompatible acc inputs ↔
      f ∈ acc ∨ ∃ e ∈ inputs, isIncompatible e.1 = true ∧
        e.1.node.sourceFile = f := by
  induction inputs generalizing acc with
  | nil => simp [incompatFilesAfter]
  | cons e es ih =>
    by_cases hinc : isIncompatible e.1 = true
    · simp only [incompatFilesAfter, hinc, if_true, ih, mem_setAdd,
        List.mem_cons]
      constructor
      · rintro ((h | rfl) | ⟨x, hx, hx2⟩)
        · exact Or.inl h
        · exact Or.inr ⟨e, Or.inl rfl, hinc, rfl⟩
        · exact Or.inr ⟨x, Or.inr hx, hx2⟩
      · rintro (h | ⟨x, (rfl | hx), hx1, hx2⟩)
        · exact Or.inl (Or.inl h)
        · exact Or.inl (Or.inr hx2.symm)
        · exact Or.inr ⟨x, hx, hx1, hx2⟩
    · simp only [Bool.not_eq_true] at hinc
      simp only [incompatFilesAfter, hinc, Bool.false_eq_true, if_false, ih,
        List.mem_cons]
      constructor
      · rintro (h | ⟨x, hx, hx2⟩)
        · exact Or.inl h
        · exact Or.inr ⟨x, Or.inr hx, hx2⟩
      · rintro (h | ⟨x, (rfl | hx), hx1, hx2⟩)
        · exact Or.inl h
        · simp [hinc] at hx1
        · exact Or.inr ⟨x, hx, hx1, hx2⟩

theorem nodup_migratedFilesAfter (isIncompatible : Classifier)
    (inputs : List (InputDescriptor × Option Metadata)) (acc : List Nat)
    (h : acc.Nodup) :
    (migratedFilesAfter isIncompatible acc inputs).Nodup := by
  induction inputs generalizing acc with
  | nil => exact h
  | cons e es ih =>
    unfold migratedFilesAfter
    split
    · exact ih acc h
    · exact ih _ (nodup_setAdd h)

/-! Lemmas about one step of the per-declaration loop. -/

theorem pass6Step_skip (host : Config) (isIncompatible : Classifier)
    (insertTodoForIncompatibility : TodoProducer)
    (convertToSignalInput : Synthesizer) (st : Pass6State)
    (e : InputDescriptor × Option Metadata)
    (hinc : isIncompatible e.1 = true) :
    pass6Step host isIncompatible insertTodoForIncompatibility
        convertToSignalInput st e =
      .ok { st with
        replacements := st.replacements ++
          (if host.insertTodosForSkippedFields
            then insertTodoForIncompatibility e.1 else []),
        filesWithIncompatibleInputs :=
          setAdd st.filesWithIncompatibleInputs e.1.node.sourceFile } := by
  simp [pass6Step, hinc]

theorem pass6Step_migrate (host : Config) (isIncompatible : Classifier)
    (insertTodoForIncompatibility : TodoProducer)
    (convertToSignalInput : Synthesizer) (st : Pass6State)
    (e : InputDescriptor × Option Metadata) (m : Metadata)
    (hinc : isIncompatible e.1 = false) (hm : e.2 = some m)
    (hacc : e.1.node.isAccessor = false) :
    pass6Step host isIncompatible insertTodoForIncompatibility
        convertToSignalInput st e =
      .ok { st with
        filesWithMigratedInputs :=
          setAdd st.filesWithMigratedInputs e.1.node.sourceFile,
        replacements := st.replacements ++
          [⟨e.1.node.sourceFile,
            ⟨e.1.node.startPos, e.1.node.endPos,
              (convertToSignalInput e.1.node m).1⟩⟩],
        importMgr := { st.importMgr with
          registered := st.importMgr.registered ++
            (convertToSignalInput e.1.node m).2 } } := by
  simp [pass6Step, hinc, hm, hacc]

theorem pass6Step_error_of (host : Config) (isIncompatible : Classifier)
    (insertTodoForIncompatibility : TodoProducer)
    (convertToSignalInput : Synthesizer) (st : Pass6State)
    (e : InputDescriptor × Option Metadata)
    (h : entryOk isIncompatible e = false) :
    ∃ err, pass6Step host isIncompatible insertTodoForIncompatibility
        convertToSignalInput st e = .error err := by
  simp only [entryOk, Bool.or_eq_false_iff, Bool.and_eq_false_iff] at h
  obtain ⟨hinc, hrest⟩ := h
  rcases hrest with hm | hacc
  · have hm2 : e.2 = none := by
      cases h2 : e.2 <;> simp [h2] at hm ⊢
    exact ⟨"Expected metadata to exist for input that is not marked incompatible.",
      by simp [pass6Step, hinc, hm2]⟩
  · have hacc2 : e.1.node.isAccessor = true := by
      simpa using hacc
    cases h2 : e.2 with
    | none =>
      exact ⟨"Expected metadata to exist for input that is not marked incompatible.",
        by simp [pass6Step, hinc, h2]⟩
    | some m =>
      exact ⟨"Accessor inputs are incompatible.",
        by simp [pass6Step, hinc, h2, hacc2]⟩

/-- On an `entryOk` entry the step succeeds and its effect is
`declContribution` / `declRegs` / one conditional set insertion. -/
theorem pass6Step_ok_of (host : Config) (isIncompatible : Classifier)
    (insertTodoForIncompatibility : TodoProducer)
    (convertToSignalInput : Synthesizer) (st : Pass6State)
    (e : InputDescriptor × Option Metadata)
    (h : entryOk isIncompatible e = true) :
    pass6Step host isIncompatible insertTodoForIncompatibility
        convertToSignalInput st e =
      .ok { replacements :=
              st.replacements ++
                declContribution host isIncompatible
                  insertTodoForIncompatibility convertToSignalInput e,
            importMgr :=
              { registered :=
                  st.importMgr.registered ++
                    declRegs isIncompatible convertToSignalInput e,
                removals := st.importMgr.removals },
            filesWithMigratedInputs :=
              if isIncompatible e.1 then st.filesWithMigratedInputs
              else setAdd st.filesWithMigratedInputs e.1.node.sourceFile,
            filesWithIncompatibleInputs :=
              if isIncompatible e.1
              then setAdd st.filesWithIncompatibleInputs e.1.node.sourceFile
              else st.filesWithIncompatibleInputs } := by
  by_cases hinc : isIncompatible e.1 = true
  · rw [pass6Step_skip host isIncompatible insertTodoForIncompatibility
      convertToSignalInput st e hinc]
    simp [declContribution, declRegs, hinc]
  · simp only [Bool.not_eq_true] at hinc
    simp only [entryOk, hinc, Bool.false_or, Bool.and_eq_true,
      Bool.not_eq_true', Option.isSome_iff_exists] at h
    obtain ⟨⟨m, hm⟩, hacc⟩ := h
    rw [pass6Step_migrate host isIncompatible insertTodoForIncompatibility
      convertToSignalInput st e m hinc hm hacc]
    simp [declContribution, declRegs, hinc, hm]

/-! The characterization of a completed phase 1. -/

theorem pass6Loop_ok (host : Config) (isIncompatible : Classifier)
    (insertTodoForIncompatibility : TodoProducer)
    (convertToSignalInput : Synthesizer)
    (inputs : List (InputDescriptor × Option Metadata)) (st : Pass6State)
    (h : ∀ e ∈ inputs, entryOk isIncompatible e = true) :
    pass6Loop host isIncompatible insertTodoForIncompatibility
        convertToSignalInput st inputs =
      .ok { replacements :=
              st.replacements ++
                inputs.flatMap (declContribution host isIncompatible
                  insertTodoForIncompatibility convertToSignalInput),
            importMgr :=
              { registered :=
                  st.importMgr.registered ++
                    inputs.flatMap
                      (declRegs isIncompatible convertToSignalInput),
                removals := st.importMgr.removals },
            filesWithMigratedInputs :=
              migratedFilesAfter isIncompatible st.filesWithMigratedInputs
                inputs,
            filesWithIncompatibleInputs :=
              incompatFilesAfter isIncompatible
                st.filesWithIncompatibleInputs inputs } := by
  induction inputs generalizing st with
  | nil => simp [pass6Loop, migratedFilesAfter, incompatFilesAfter]
  | cons e es ih =>
    have he : entryOk isIncompatible e = true := h e (by simp)
    have hes : ∀ x ∈ es, entryOk isIncompatible x = true :=
      fun x hx => h x (by simp [hx])
    show pass6Loop host isIncompatible insertTodoForIncompatibility
        convertToSignalInput st (e :: es) = _
    rw [pass6Loop, pass6Step_ok_of host isIncompatible
      insertTodoForIncompatibility convertToSignalInput st e he]
    dsimp only
    rw [ih _ hes]
    simp only [migratedFilesAfter, incompatFilesAfter, List.flatMap_cons,
      List.append_assoc, Except.ok.injEq]

/-! Error behaviour of phase 1. -/

theorem pass6Loop_error_iff (host : Config) (isIncompatible : Classifier)
    (insertTodoForIncompatibility : TodoProducer)
    (convertToSignalInput : Synthesizer)
    (inputs : List (InputDescriptor × Option Metadata)) (st : Pass6State) :
    (∃ err, pass6Loop host isIncompatible insertTodoForIncompatibility
        convertToSignalInput st inputs = .error err) ↔
      ∃ e ∈ inputs, entryOk isIncompatible e = false := by
  induction inputs generalizing st with
  | nil => simp [pass6Loop]
  | cons e es ih =>
    by_cases he : entryOk isIncompatible e = true
    · rw [pass6Loop, pass6Step_ok_of host isIncompatible
        insertTodoForIncompatibility convertToSignalInput st e he]
      dsimp only
      rw [ih]
      constructor
      · rintro ⟨x, hx, hx2⟩
        exact ⟨x, by simp [hx], hx2⟩
      · rintro ⟨x, hx, hx2⟩
        rcases List.mem_cons.mp hx with rfl | hx3
        · simp [he] at hx2
        · exact ⟨x, hx3, hx2⟩
    · rw [Bool.not_eq_true] at he
      obtain ⟨err, herr⟩ := pass6Step_error_of host isIncompatible
        insertTodoForIncompatibility convertToSignalInput st e he
      rw [pass6Loop, herr]
      dsimp only
      constructor
      · intro _
        exact ⟨e, by simp, he⟩
      · intro _
        exact ⟨err, rfl⟩

theorem pass6Loop_ok_entryOk (host : Config) (isIncompatible : Classifier)
    (insertTodoForIncompatibility : TodoProducer)
    (convertToSignalInput : Synthesizer)
    (inputs : List (InputDescriptor × Option Metadata)) (st st' : Pass6State)
    (h : pass6Loop host isIncompatible insertTodoForIncompatibility
        convertToSignalInput st inputs = .ok st') :
    ∀ e ∈ inputs, entryOk isIncompatible e = true := by
  intro e he
  by_contra hbad
  rw [Bool.not_eq_true] at hbad
  obtain ⟨err, herr⟩ := (pass6Loop_error_iff host isIncompatible
    insertTodoForIncompatibility convertToSignalInput inputs st).mpr
    ⟨e, he, hbad⟩
  rw [h] at herr
  exact Except.noConfusion herr

/-! Phase 1 never touches the remove-import command list. -/

theorem pass6Step_removals (host : Config) (isIncompatible : Classifier)
    (insertTodoForIncompatibility : TodoProducer)
    (convertToSignalInput : Synthesizer) (st st1 : Pass6State)
    (e : InputDescriptor × Option Metadata)
    (h : pass6Step host isIncompatible insertTodoForIncompatibility
        convertToSignalInput st e = .ok st1) :
    st1.importMgr.removals = st.importMgr.removals := by
  by_cases he : entryOk isIncompatible e = true
  · rw [pass6Step_ok_of host isIncompatible insertTodoForIncompatibility
      convertToSignalInput st e he] at h
    injection h with h1
    subst h1
    rfl
  · rw [Bool.not_eq_true] at he
    obtain ⟨err, herr⟩ := pass6Step_error_of host isIncompatible
      insertTodoForIncompatibility convertToSignalInput st e he
    rw [herr] at h
    exact Except.noConfusion h

theorem pass6Loop_removals (host : Config) (isIncompatible : Classifier)
    (insertTodoForIncompatibility : TodoProducer)
    (convertToSignalInput : Synthesizer)
    (inputs : List (InputDescriptor × Option Metadata)) (st st' : Pass6State)
    (h : pass6Loop host isIncompatible insertTodoForIncompatibility
        convertToSignalInput st inputs = .ok st') :
    st'.importMgr.removals = st.importMgr.removals := by
  induction inputs generalizing st with
  | nil =>
    rw [pass6Loop] at h
    injection h with h1
    subst h1
    rfl
  | cons e es ih =>
    rw [pass6Loop] at h
    cases hstep : pass6Step host isIncompatible insertTodoForIncompatibility
        convertToSignalInput st e with
    | error err =>
      rw [hstep] at h
      exact Except.noConfusion h
    | ok st1 =>
      rw [hstep] at h
      dsimp only at h
      rw [ih st1 h]
      exact pass6Step_removals host isIncompatible
        insertTodoForIncompatibility convertToSignalInput st st1 e hstep

/-! Full-run characterization. -/

theorem pass6_run_ok (host : Config) (isIncompatible : Classifier)
    (insertTodoForIncompatibility : TodoProducer)
    (convertToSignalInput : Synthesizer)
    (inputs : List (InputDescriptor × Option Metadata))
    (im0 : ImportManagerState) (st' : Pass6State)
    (h : pass6__migrateInputDeclarations host isIncompatible
        insertTodoForIncompatibility convertToSignalInput inputs im0 =
      .ok st') :
    st' = pass6ImportPass
      { replacements :=
          inputs.flatMap (declContribution host isIncompatible
            insertTodoForIncompatibility convertToSignalInput),
        importMgr :=
          { registered :=
              im0.registered ++
                inputs.flatMap (declRegs isIncompatible convertToSignalInput),
            removals := im0.removals },
        filesWithMigratedInputs := migratedFilesAfter isIncompatible [] inputs,
        filesWithIncompatibleInputs :=
          incompatFilesAfter isIncompatible [] inputs } := by
  unfold pass6__migrateInputDeclarations at h
  cases hloop : pass6Loop host isIncompatible insertTodoForIncompatibility
      convertToSignalInput (pass6Init im0) inputs with
  | error err =>
    rw [hloop] at h
    simp only [Except.map] at h
    exact Except.noConfusion h
  | ok st1 =>
    have hall := pass6Loop_ok_entryOk host isIncompatible
      insertTodoForIncompatibility convertToSignalInput inputs
      (pass6Init im0) st1 hloop
    rw [hloop] at h
    simp only [Except.map] at h
    injection h with h2
    rw [pass6Loop_ok host isIncompatible insertTodoForIncompatibility
      convertToSignalInput inputs (pass6Init im0) hall] at hloop
    injection hloop with h1
    subst h1
    subst h2
    simp [pass6Init]

theorem pass6_error_iff (host : Config) (isIncompatible : Classifier)
    (insertTodoForIncompatibility : TodoProducer)
    (convertToSignalInput : Synthesizer)
    (inputs : List (InputDescriptor × Option Metadata))
    (im0 : ImportManagerState) :
    (∃ err, pass6__migrateInputDeclarations host isIncompatible
        insertTodoForIncompatibility convertToSignalInput inputs im0 =
      .error err) ↔
      ∃ e ∈ inputs, entryOk isIncompatible e = false := by
  unfold pass6__migrateInputDeclarations
  rw [← pass6Loop_error_iff host isIncompatible insertTodoForIncompatibility
    convertToSignalInput inputs (pass6Init im0)]
  cases hloop : pass6Loop host isIncompatible insertTodoForIncompatibility
      convertToSignalInput (pass6Init im0) inputs with
  | error err => simp [Except.map]
  | ok st1 => simp [Except.map]

/-! Phase 2: the import-consistency loop. -/

theorem pass6ImportPass_removals_mem (st : Pass6State) (f : Nat)
    (h0 : st.importMgr.removals = []) :
    (f, "Input", "@angular/core") ∈ (pass6ImportPass st).importMgr.removals ↔
      f ∈ st.filesWithMigratedInputs ∧
        f ∉ st.filesWithIncompatibleInputs := by
  simp [pass6ImportPass, h0, List.mem_filter]

theorem pass6ImportPass_removal_files_nodup (st : Pass6State)
    (h0 : st.importMgr.removals = [])
    (h : st.filesWithMigratedInputs.Nodup) :
    ((pass6ImportPass st).importMgr.removals.map Prod.fst).Nodup := by
  simp only [pass6ImportPass, h0, List.nil_append, List.map_map]
  exact List.Nodup.map (fun a b hab => hab)
    (h.filter (fun f => ! st.filesWithIncompatibleInputs.contains f))

theorem entryOk_eq_false_iff (isIncompatible : Classifier)
    (e : InputDescriptor × Option Metadata) :
    entryOk isIncompatible e = false ↔
      isIncompatible e.1 = false ∧
        (e.2 = none ∨ e.1.node.isAccessor = true) := by
  cases h2 : e.2 <;>
    simp [entryOk, h2]

/-! Disjointness of edit ranges. -/

/-- Two half-open character ranges `[s1, e1)` and `[s2, e2)` overlap. -/
def overlaps (s1 e1 s2 e2 : Nat) : Bool :=
  decide (max s1 s2 < min e1 e2)

theorem overlaps_comm (s1 e1 s2 e2 : Nat) :
    overlaps s1 e1 s2 e2 = overlaps s2 e2 s1 e1 := by
  simp [overlaps, Nat.max_comm, Nat.min_comm]

/-- The edits accumulated for file `f` describe pairwise non-overlapping
character ranges. -/
def editsDisjointFor (f : Nat) (rs : List Replacement) : Prop :=
  rs.Pairwise (fun a b => a.projectFile = f → b.projectFile = f →
    overlaps a.update.position a.update.endPos
      b.update.position b.update.endPos = false)

/-- All edits in the list that share a target file describe pairwise
non-overlapping character ranges. -/
def editsDisjoint (rs : List Replacement) : Prop :=
  rs.Pairwise (fun a b => a.projectFile = b.projectFile →
    overlaps a.update.position a.update.endPos
      b.update.position b.update.endPos = false)

theorem editsDisjoint_for (rs : List Replacement) (h : editsDisjoint rs)
    (f : Nat) : editsDisjointFor f rs :=
  h.imp (fun hab haf hbf => hab (haf.trans hbf.symm))

/-! Generic list helpers. -/

theorem pairwise_flatMap {α β : Type} (R : β → β → Prop) (g : α → List β)
    (l : List α)
    (h1 : ∀ a ∈ l, (g a).Pairwise R)
    (h2 : l.Pairwise (fun a b => ∀ x ∈ g a, ∀ y ∈ g b, R x y)) :
    (l.flatMap g).Pairwise R := by
  induction l with
  | nil => simp
  | cons a as ih =>
    simp only [List.flatMap_cons]
    rw [List.pairwise_append]
    obtain ⟨hhead, htail⟩ := List.pairwise_cons.mp h2
    refine ⟨h1 a (by simp), ih (fun x hx => h1 x (by simp [hx])) htail, ?_⟩
    intro x hx y hy
    obtain ⟨b, hb, hyb⟩ := List.mem_flatMap.mp hy
    exact hhead b hb x hx y hyb

theorem pairwise_and {α : Type} {R S : α → α → Prop} {l : List α}
    (hR : l.Pairwise R) (hS : l.Pairwise S) :
    l.Pairwise (fun a b => R a b ∧ S a b) := by
  induction l with
  | nil => exact List.Pairwise.nil
  | cons a as ih =>
    obtain ⟨hRa, hRas⟩ := List.pairwise_cons.mp hR
    obtain ⟨hSa, hSas⟩ := List.pairwise_cons.mp hS
    exact List.pairwise_cons.mpr
      ⟨fun b hb => ⟨hRa b hb, hSa b hb⟩, ih hRas hSas⟩

theorem flatMap_sublist {α β : Type} (g1 g2 : α → List β) (l : List α)
    (h : ∀ a ∈ l, (g1 a).Sublist (g2 a)) :
    (l.flatMap g1).Sublist (l.flatMap g2) := by
  induction l with
  | nil => simp
  | cons a as ih =>
    simp only [List.flatMap_cons]
    exact (h a (by simp)).append (ih fun x hx => h x (by simp [hx]))

/-! The claims. -/

/-- C1.  For every file `F`, the pass issues the
`removeImport(F, 'Input', '@angular/core')` command if and only if `F` is in
the "has migrated" set (`filesWithMigratedInputs`) and `F` is not in the
"has unmigrated" set (`filesWithIncompatibleInputs`); in particular a file
containing only incompatible declarations never has its import removed. -/
theorem pass6_removes_import_iff (host : Config) (isIncompatible : Classifier)
    (insertTodoForIncompatibility : TodoProducer)
    (convertToSignalInput : Synthesizer)
    (inputs : List (InputDescriptor × Option Metadata))
    (im0 : ImportManagerState) (st' : Pass6State) (f : Nat)
    (hrun : pass6__migrateInputDeclarations host isIncompatible
        insertTodoForIncompatibility convertToSignalInput inputs im0 =
      .ok st')
    (h0 : im0.removals = []) :
    (f, "Input", "@angular/core") ∈ st'.importMgr.removals ↔
      (f ∈ st'.filesWithMigratedInputs ∧
        f ∉ st'.filesWithIncompatibleInputs) := by
  rw [pass6_run_ok host isIncompatible insertTodoForIncompatibility
    convertToSignalInput inputs im0 st' hrun]
  exact pass6ImportPass_removals_mem _ f h0

/-- C2.  The pass aborts with an assertion failure exactly when the registry
contains a declaration classified compatible whose metadata is absent or
whose node is an accessor form; for all other inputs neither assertion
fires and the pass returns normally. -/
theorem pass6_assertion_failure_iff (host : Config)
    (isIncompatible : Classifier)
    (insertTodoForIncompatibility : TodoProducer)
    (convertToSignalInput : Synthesizer)
    (inputs : List (InputDescriptor × Option Metadata))
    (im0 : ImportManagerState) :
    (∃ err, pass6__migrateInputDeclarations host isIncompatible
        insertTodoForIncompatibility convertToSignalInput inputs im0 =
      .error err) ↔
      ∃ e ∈ inputs, isIncompatible e.1 = false ∧
        (e.2 = none ∨ e.1.node.isAccessor = true) := by
  rw [pass6_error_iff host isIncompatible insertTodoForIncompatibility
    convertToSignalInput inputs im0]
  constructor
  · rintro ⟨e, he, hbad⟩
    exact ⟨e, he, (entryOk_eq_false_iff isIncompatible e).mp hbad⟩
  · rintro ⟨e, he, hbad⟩
    exact ⟨e, he, (entryOk_eq_false_iff isIncompatible e).mpr hbad⟩

/-- C3.  In every successful run, every registry entry contributes through
exactly one of the two paths: the edit list is the concatenation of the
per-declaration contributions, a file is in the "has unmigrated" set exactly
when some incompatible declaration owns it, a file is in the "has migrated"
set exactly when some compatible declaration owns it, and an incompatible
declaration contributes only its TODO edits (never a full-replacement
edit). -/
theorem pass6_exactly_one_path (host : Config) (isIncompatible : Classifier)
    (insertTodoForIncompatibility : TodoProducer)
    (convertToSignalInput : Synthesizer)
    (inputs : List (InputDescriptor × Option Metadata))
    (im0 : ImportManagerState) (st' : Pass6State)
    (hrun : pass6__migrateInputDeclarations host isIncompatible
        insertTodoForIncompatibility convertToSignalInput inputs im0 =
      .ok st') :
    st'.replacements =
      inputs.flatMap (declContribution host isIncompatible
        insertTodoForIncompatibility convertToSignalInput) ∧
    (∀ f, f ∈ st'.filesWithIncompatibleInputs ↔
      ∃ e ∈ inputs, isIncompatible e.1 = true ∧ e.1.node.sourceFile = f) ∧
    (∀ f, f ∈ st'.filesWithMigratedInputs ↔
      ∃ e ∈ inputs, isIncompatible e.1 = false ∧ e.1.node.sourceFile = f) ∧
    (∀ e ∈ inputs, isIncompatible e.1 = true →
      declContribution host isIncompatible insertTodoForIncompatibility
          convertToSignalInput e =
        (if host.insertTodosForSkippedFields
          then insertTodoForIncompatibility e.1 else [])) := by
  rw [pass6_run_ok host isIncompatible insertTodoForIncompatibility
    convertToSignalInput inputs im0 st' hrun]
  refine ⟨rfl, ?_, ?_, ?_⟩
  · intro f
    simpa using mem_incompatFilesAfter isIncompatible inputs [] f
  · intro f
    simpa using mem_migratedFilesAfter isIncompatible inputs [] f
  · intro e _ hinc
    simp [declContribution, hinc]

/-- C4.  For every compatible declaration with non-null metadata that is not
an accessor, the migrate path appends exactly one edit to the replacement
list, spanning the declaration's full original source range
(`getStart() .. getEnd()`) and carrying the text returned by
`convertToSignalInput` on the declaration node and its metadata; besides
that it only records the owning file as migrated and the bindings the
synthesizer registers. -/
theorem pass6_migrate_appends_single_edit (host : Config)
    (isIncompatible : Classifier)
    (insertTodoForIncompatibility : TodoProducer)
    (convertToSignalInput : Synthesizer) (st : Pass6State)
    (e : InputDescriptor × Option Metadata) (m : Metadata)
    (hc : isIncompatible e.1 = false) (hm : e.2 = some m)
    (ha : e.1.node.isAccessor = false) :
    pass6Step host isIncompatible insertTodoForIncompatibility
        convertToSignalInput st e =
      .ok { st with
        filesWithMigratedInputs :=
          setAdd st.filesWithMigratedInputs e.1.node.sourceFile,
        replacements := st.replacements ++
          [⟨e.1.node.sourceFile,
            ⟨e.1.node.startPos, e.1.node.endPos,
              (convertToSignalInput e.1.node m).1⟩⟩],
        importMgr := { st.importMgr with
          registered := st.importMgr.registered ++
            (convertToSignalInput e.1.node m).2 } } :=
  pass6Step_migrate host isIncompatible insertTodoForIncompatibility
    convertToSignalInput st e m hc hm ha

/-! C5 helpers: with the flag off, the step and the loop never consult the
TODO producer. -/

theorem pass6Step_flag_false (host : Config) (isIncompatible : Classifier)
    (todoA todoB : TodoProducer) (convertToSignalInput : Synthesizer)
    (st : Pass6State) (e : InputDescriptor × Option Metadata)
    (hflag : host.insertTodosForSkippedFields = false) :
    pass6Step host isIncompatible todoA convertToSignalInput st e =
      pass6Step host isIncompatible todoB convertToSignalInput st e := by
  simp [pass6Step, hflag]

theorem pass6Loop_flag_false (host : Config) (isIncompatible : Classifier)
    (todoA todoB : TodoProducer) (convertToSignalInput : Synthesizer)
    (inputs : List (InputDescriptor × Option Metadata)) (st : Pass6State)
    (hflag : host.insertTodosForSkippedFields = false) :
    pass6Loop host isIncompatible todoA convertToSignalInput st inputs =
      pass6Loop host isIncompatible todoB convertToSignalInput st inputs := by
  induction inputs generalizing st with
  | nil => rfl
  | cons e es ih =>
    rw [pass6Loop, pass6Loop, pass6Step_flag_false host isIncompatible
      todoA todoB convertToSignalInput st e hflag]
    cases hstep : pass6Step host isIncompatible todoB convertToSignalInput
        st e with
    | error err => rfl
    | ok st1 =>
      dsimp only
      exact ih st1

/-- C5.  When `insertTodosForSkippedFields` is false, the TODO producer is
never consulted: the whole run is identical to a run with a TODO producer
that returns no edits, for every registry and every number of incompatible
declarations — so no TODO edits are ever appended. -/
theorem pass6_flag_false_no_todo_edits (host : Config)
    (isIncompatible : Classifier)
    (insertTodoForIncompatibility : TodoProducer)
    (convertToSignalInput : Synthesizer)
    (inputs : List (InputDescriptor × Option Metadata))
    (im0 : ImportManagerState)
    (hflag : host.insertTodosForSkippedFields = false) :
    pass6__migrateInputDeclarations host isIncompatible
        insertTodoForIncompatibility convertToSignalInput inputs im0 =
      pass6__migrateInputDeclarations host isIncompatible (fun _ => [])
        convertToSignalInput inputs im0 := by
  unfold pass6__migrateInputDeclarations
  rw [pass6Loop_flag_false host isIncompatible insertTodoForIncompatibility
    (fun _ => []) convertToSignalInput inputs (pass6Init im0) hflag]

/-- C6.  The skip path, taken for every incompatible declaration, raises no
error and leaves the Import Manager's state (both the registered bindings
and the remove-import commands) and the "has migrated" set untouched: its
only effects are appending the TODO edits (when enabled) and adding the
owning file to the "has unmigrated" set. -/
theorem pass6_skip_path_frame (host : Config) (isIncompatible : Classifier)
    (insertTodoForIncompatibility : TodoProducer)
    (convertToSignalInput : Synthesizer) (st : Pass6State)
    (e : InputDescriptor × Option Metadata)
    (hinc : isIncompatible e.1 = true) :
    ∃ st', pass6Step host isIncompatible insertTodoForIncompatibility
        convertToSignalInput st e = .ok st' ∧
      st'.importMgr = st.importMgr ∧
      st'.filesWithMigratedInputs = st.filesWithMigratedInputs ∧
      st'.replacements = st.replacements ++
        (if host.insertTodosForSkippedFields
          then insertTodoForIncompatibility e.1 else []) ∧
      st'.filesWithIncompatibleInputs =
        setAdd st.filesWithIncompatibleInputs e.1.node.sourceFile := by
  refine ⟨_, pass6Step_skip host isIncompatible
    insertTodoForIncompatibility convertToSignalInput st e hinc,
    rfl, rfl, rfl, rfl⟩

/-- C7.  During phase 1 — after processing any prefix of the registry, so
before every declaration has been processed — no remove-import command has
been issued: the Import Manager's command list is still exactly the incoming
one.  Phase 2 is the only place commands are added. -/
theorem pass6_no_removals_during_phase1 (host : Config)
    (isIncompatible : Classifier)
    (insertTodoForIncompatibility : TodoProducer)
    (convertToSignalInput : Synthesizer)
    (inputs pre suf : List (InputDescriptor × Option Metadata))
    (im0 : ImportManagerState) (st' : Pass6State)
    (_hsplit : inputs = pre ++ suf)
    (h : pass6Loop host isIncompatible insertTodoForIncompatibility
        convertToSignalInput (pass6Init im0) pre = .ok st') :
    st'.importMgr.removals = im0.removals :=
  pass6Loop_removals host isIncompatible insertTodoForIncompatibility
    convertToSignalInput pre (pass6Init im0) st' h

/-- C9.  Every successful run issues at most one remove-import command per
file: the files named by the commands the run issues are pairwise
distinct, because the import-consistency loop iterates a duplicate-free
file set. -/
theorem pass6_removal_files_nodup (host : Config)
    (isIncompatible : Classifier)
    (insertTodoForIncompatibility : TodoProducer)
    (convertToSignalInput : Synthesizer)
    (inputs : List (InputDescriptor × Option Metadata))
    (im0 : ImportManagerState) (st' : Pass6State)
    (hrun : pass6__migrateInputDeclarations host isIncompatible
        insertTodoForIncompatibility convertToSignalInput inputs im0 =
      .ok st')
    (h0 : im0.removals = []) :
    (st'.importMgr.removals.map Prod.fst).Nodup := by
  rw [pass6_run_ok host isIncompatible insertTodoForIncompatibility
    convertToSignalInput inputs im0 st' hrun]
  exact pass6ImportPass_removal_files_nodup _ h0
    (nodup_migratedFilesAfter isIncompatible inputs [] List.nodup_nil)

/-- C10.  Two successful runs on the same registry differing only in
`insertTodosForSkippedFields` have identical "has migrated" and
"has unmigrated" sets and an identical Import Manager state (identical
registrations and identical remove-import commands); the flag-off run's
edit list is exactly the flag-on run's edit list with the TODO edits
removed (its migrate-path edits, a sublist of the flag-on edits); and in
particular a file owning an incompatible declaration keeps its import even
when the flag is false. -/
theorem pass6_flag_noninterference (isIncompatible : Classifier)
    (insertTodoForIncompatibility : TodoProducer)
    (convertToSignalInput : Synthesizer)
    (inputs : List (InputDescriptor × Option Metadata))
    (im0 : ImportManagerState) (stT stF : Pass6State)
    (hT : pass6__migrateInputDeclarations ⟨true⟩ isIncompatible
        insertTodoForIncompatibility convertToSignalInput inputs im0 =
      .ok stT)
    (hF : pass6__migrateInputDeclarations ⟨false⟩ isIncompatible
        insertTodoForIncompatibility convertToSignalInput inputs im0 =
      .ok stF)
    (h0 : im0.removals = []) :
    stT.filesWithMigratedInputs = stF.filesWithMigratedInputs ∧
    stT.filesWithIncompatibleInputs = stF.filesWithIncompatibleInputs ∧
    stT.importMgr = stF.importMgr ∧
    stF.replacements =
      inputs.flatMap (declContribution ⟨false⟩ isIncompatible
        insertTodoForIncompatibility convertToSignalInput) ∧
    stF.replacements.Sublist stT.replacements ∧
    (∀ f, (∃ e ∈ inputs, isIncompatible e.1 = true ∧
        e.1.node.sourceFile = f) →
      (f, "Input", "@angular/core") ∉ stF.importMgr.removals) := by
  rw [pass6_run_ok ⟨true⟩ isIncompatible insertTodoForIncompatibility
    convertToSignalInput inputs im0 stT hT]
  rw [pass6_run_ok ⟨false⟩ isIncompatible insertTodoForIncompatibility
    convertToSignalInput inputs im0 stF hF]
  refine ⟨rfl, rfl, rfl, rfl, ?_, ?_⟩
  · exact flatMap_sublist _ _ inputs fun e _ => by
      by_cases hinc : isIncompatible e.1 = true
      · simp [declContribution, hinc]
      · rw [Bool.not_eq_true] at hinc
        simp [declContribution, hinc]
  · intro f hf
    rw [pass6ImportPass_removals_mem _ f h0]
    rintro ⟨-, hnot⟩
    exact hnot (by simpa using
      (mem_incompatFilesAfter isIncompatible inputs [] f).mpr (Or.inr hf))

/-! C8 helpers and scenarios. -/

theorem mem_declContribution (host : Config) (isIncompatible : Classifier)
    (insertTodoForIncompatibility : TodoProducer)
    (convertToSignalInput : Synthesizer)
    (e : InputDescriptor × Option Metadata) (r : Replacement)
    (h : r ∈ declContribution host isIncompatible
        insertTodoForIncompatibility convertToSignalInput e) :
    (isIncompatible e.1 = true ∧ r ∈ insertTodoForIncompatibility e.1) ∨
    (isIncompatible e.1 = false ∧ ∃ m, e.2 = some m ∧
      r = ⟨e.1.node.sourceFile,
        ⟨e.1.node.startPos, e.1.node.endPos,
          (convertToSignalInput e.1.node m).1⟩⟩) := by
  by_cases hinc : isIncompatible e.1 = true
  · left
    refine ⟨hinc, ?_⟩
    by_cases hflag : host.insertTodosForSkippedFields = true
    · simpa [declContribution, hinc, hflag] using h
    · rw [Bool.not_eq_true] at hflag
      simp [declContribution, hinc, hflag] at h
  · right
    rw [Bool.not_eq_true] at hinc
    refine ⟨hinc, ?_⟩
    cases hm : e.2 with
    | none => simp [declContribution, hinc, hm] at h
    | some m =>
      simp only [declContribution, hinc, Bool.false_eq_true, if_false, hm,
        List.mem_singleton] at h
      exact ⟨m, rfl, h⟩

/-- C8 counterexample scenario: two incompatible declarations in file `0`
with disjoint source ranges; the TODO producer anchors each declaration's
edit strictly outside that declaration's own range, yet the two TODO edits
overlap each other. -/
def cxNodeA : InputNode := ⟨0, 0, 10, false⟩

def cxNodeB : InputNode := ⟨0, 20, 30, false⟩

def cxInputs : List (InputDescriptor × Option Metadata) :=
  [(⟨cxNodeA⟩, none), (⟨cxNodeB⟩, none)]

def cxClassifier : Classifier := fun _ => true

def cxTodo : TodoProducer := fun d =>
  if d.node.startPos == 0 then [⟨0, ⟨100, 110, "skipped A"⟩⟩]
  else [⟨0, ⟨105, 115, "skipped B"⟩⟩]

def cxSynth : Synthesizer := fun _ _ => ("", [])

/-- The state the pass produces on the C8 counterexample scenario. -/
def cxFinal : Pass6State :=
  ⟨[⟨0, ⟨100, 110, "skipped A"⟩⟩, ⟨0, ⟨105, 115, "skipped B"⟩⟩],
    ⟨[], []⟩, [], [0]⟩

/-- C8 as stated is false: in this run every pair of distinct declarations
occupies disjoint ranges and every TODO edit avoids its own declaration's
range, yet the edits accumulated for file `0` contain an overlapping pair
(the two TODO edits at `[100,110)` and `[105,115)`). -/
theorem pass6_edits_overlap_counterexample :
    pass6__migrateInputDeclarations ⟨true⟩ cxClassifier cxTodo cxSynth
        cxInputs ⟨[], []⟩ = .ok cxFinal ∧
    (cxInputs.all fun e1 => cxInputs.all fun e2 =>
      decide (e1.1.node = e2.1.node) ||
        ! overlaps e1.1.node.startPos e1.1.node.endPos
            e2.1.node.startPos e2.1.node.endPos) = true ∧
    (cxInputs.all fun e => (cxTodo e.1).all fun r =>
      ! overlaps r.update.position r.update.endPos
          e.1.node.startPos e.1.node.endPos) = true ∧
    ¬ editsDisjointFor 0 cxFinal.replacements := by
  refine ⟨rfl, by decide, by decide, ?_⟩
  intro h
  have h2 := (List.pairwise_cons.mp h).1 ⟨0, ⟨105, 115, "skipped B"⟩⟩
    (by simp [cxFinal]) rfl rfl
  simp [overlaps] at h2

/-- C8 (amended).  For every file, the edits a successful run accumulates
describe pairwise non-overlapping character ranges, provided (as the claim
assumes) the declarations occupy pairwise disjoint ranges within a file,
and (strengthening the claim's TODO hypothesis, which the counterexample
shows insufficient) every TODO edit avoids the range of every declaration
in its target file and the TODO edits themselves are pairwise
non-overlapping, both within one declaration's batch and across
declarations. -/
theorem pass6_edits_disjoint (host : Config) (isIncompatible : Classifier)
    (insertTodoForIncompatibility : TodoProducer)
    (convertToSignalInput : Synthesizer)
    (inputs : List (InputDescriptor × Option Metadata))
    (im0 : ImportManagerState) (st' : Pass6State)
    (hrun : pass6__migrateInputDeclarations host isIncompatible
        insertTodoForIncompatibility convertToSignalInput inputs im0 =
      .ok st')
    (hdecl : inputs.Pairwise (fun e1 e2 =>
      e1.1.node.sourceFile = e2.1.node.sourceFile →
        overlaps e1.1.node.startPos e1.1.node.endPos
          e2.1.node.startPos e2.1.node.endPos = false))
    (htodoDecl : ∀ e1 ∈ inputs, ∀ r ∈ insertTodoForIncompatibility e1.1,
      ∀ e2 ∈ inputs, r.projectFile = e2.1.node.sourceFile →
        overlaps r.update.position r.update.endPos
          e2.1.node.startPos e2.1.node.endPos = false)
    (htodoSelf : ∀ e ∈ inputs,
      (insertTodoForIncompatibility e.1).Pairwise (fun r1 r2 =>
        r1.projectFile = r2.projectFile →
          overlaps r1.update.position r1.update.endPos
            r2.update.position r2.update.endPos = false))
    (htodoAcross : inputs.Pairwise (fun e1 e2 =>
      ∀ r1 ∈ insertTodoForIncompatibility e1.1,
      ∀ r2 ∈ insertTodoForIncompatibility e2.1,
        r1.projectFile = r2.projectFile →
          overlaps r1.update.position r1.update.endPos
            r2.update.position r2.update.endPos = false)) :
    ∀ f, editsDisjointFor f st'.replacements := by
  intro f
  refine editsDisjoint_for _ ?_ f
  rw [pass6_run_ok host isIncompatible insertTodoForIncompatibility
    convertToSignalInput inputs im0 st' hrun]
  show editsDisjoint (inputs.flatMap (declContribution host isIncompatible
    insertTodoForIncompatibility convertToSignalInput))
  refine pairwise_flatMap _ _ _ ?_ ?_
  · intro e he
    by_cases hinc : isIncompatible e.1 = true
    · by_cases hflag : host.insertTodosForSkippedFields = true
      · simpa [declContribution, hinc, hflag] using htodoSelf e he
      · rw [Bool.not_eq_true] at hflag
        simp [declContribution, hinc, hflag]
    · rw [Bool.not_eq_true] at hinc
      cases hm : e.2 with
      | none => simp [declContribution, hinc, hm]
      | some m => simp [declContribution, hinc, hm]
  · refine List.Pairwise.imp_of_mem ?_ (pairwise_and hdecl htodoAcross)
    rintro e1 e2 h1mem h2mem ⟨hd, ha⟩ x hx y hy
    rcases mem_declContribution host isIncompatible
        insertTodoForIncompatibility convertToSignalInput e1 x hx with
      ⟨hinc1, hx2⟩ | ⟨hinc1, m1, hm1, rfl⟩
    · rcases mem_declContribution host isIncompatible
          insertTodoForIncompatibility convertToSignalInput e2 y hy with
        ⟨hinc2, hy2⟩ | ⟨hinc2, m2, hm2, rfl⟩
      · exact ha x hx2 y hy2
      · intro hfile
        exact htodoDecl e1 h1mem x hx2 e2 h2mem hfile
    · rcases mem_declContribution host isIncompatible
          insertTodoForIncompatibility convertToSignalInput e2 y hy with
        ⟨hinc2, hy2⟩ | ⟨hinc2, m2, hm2, rfl⟩
      · intro hfile
        rw [overlaps_comm]
        exact htodoDecl e2 h2mem y hy2 e1 h1mem hfile.symm
      · intro hfile
        exact hd hfile

/-! A concrete scenario used to witness the theorems above: file `0` holds
one compatible declaration with metadata, file `1` holds one incompatible
declaration.  The TODO producer anchors a zero-width edit at the
declaration's start; the synthesizer returns a fixed text and registers one
binding. -/

def exNodeA : InputNode := ⟨0, 0, 10, false⟩

def exNodeB : InputNode := ⟨1, 20, 30, false⟩

def exInputs : List (InputDescriptor × Option Metadata) :=
  [(⟨exNodeA⟩, some 1), (⟨exNodeB⟩, none)]

def exClassifier : Classifier := fun d => d.node.sourceFile == 1

def exTodo : TodoProducer := fun d =>
  [⟨d.node.sourceFile, ⟨d.node.startPos, d.node.startPos, "TODO"⟩⟩]

def exSynth : Synthesizer := fun n _ =>
  ("input()", [(n.sourceFile, "input", "@angular/core")])

/-- The state the pass produces on the witness scenario with
`insertTodosForSkippedFields = true`. -/
def exFinal : Pass6State :=
  ⟨[⟨0, ⟨0, 10, "input()"⟩⟩, ⟨1, ⟨20, 20, "TODO"⟩⟩],
    ⟨[(0, "input", "@angular/core")], [(0, "Input", "@angular/core")]⟩,
    [0], [1]⟩

/-- The state the pass produces on the witness scenario with
`insertTodosForSkippedFields = false`. -/
def exFinalNoTodos : Pass6State :=
  ⟨[⟨0, ⟨0, 10, "input()"⟩⟩],
    ⟨[(0, "input", "@angular/core")], [(0, "Input", "@angular/core")]⟩,
    [0], [1]⟩

/-- The phase-1 state after the first entry of the witness scenario. -/
def exMid : Pass6State :=
  ⟨[⟨0, ⟨0, 10, "input()"⟩⟩], ⟨[(0, "input", "@angular/core")], []⟩,
    [0], []⟩

/-- Witness for C1: the concrete run removes file `0`'s import and the
right-hand side of the equivalence holds there as well. -/
theorem pass6_removes_import_iff_witness :
    ((0, "Input", "@angular/core") ∈ exFinal.importMgr.removals ↔
      (0 ∈ exFinal.filesWithMigratedInputs ∧
        0 ∉ exFinal.filesWithIncompatibleInputs)) :=
  pass6_removes_import_iff ⟨true⟩ exClassifier exTodo exSynth exInputs
    ⟨[], []⟩ exFinal 0 rfl rfl

/-- Witness for C3 at the concrete run. -/
theorem pass6_exactly_one_path_witness :
    exFinal.replacements =
      exInputs.flatMap (declContribution ⟨true⟩ exClassifier exTodo
        exSynth) ∧
    (∀ f, f ∈ exFinal.filesWithIncompatibleInputs ↔
      ∃ e ∈ exInputs, exClassifier e.1 = true ∧ e.1.node.sourceFile = f) ∧
    (∀ f, f ∈ exFinal.filesWithMigratedInputs ↔
      ∃ e ∈ exInputs, exClassifier e.1 = false ∧ e.1.node.sourceFile = f) ∧
    (∀ e ∈ exInputs, exClassifier e.1 = true →
      declContribution ⟨true⟩ exClassifier exTodo exSynth e =
        (if (⟨true⟩ : Config).insertTodosForSkippedFields
          then exTodo e.1 else [])) :=
  pass6_exactly_one_path ⟨true⟩ exClassifier exTodo exSynth exInputs
    ⟨[], []⟩ exFinal rfl

/-- Witness for C4: the migrate path on the compatible entry appends exactly
the one full-replacement edit. -/
theorem pass6_migrate_appends_single_edit_witness :
    pass6Step ⟨true⟩ exClassifier exTodo exSynth (pass6Init ⟨[], []⟩)
        (⟨exNodeA⟩, some 1) = .ok exMid := by
  rw [pass6_migrate_appends_single_edit ⟨true⟩ exClassifier exTodo exSynth
    (pass6Init ⟨[], []⟩) (⟨exNodeA⟩, some 1) 1 rfl rfl rfl]
  rfl

/-- Witness for C5 at the concrete registry. -/
theorem pass6_flag_false_no_todo_edits_witness :
    pass6__migrateInputDeclarations ⟨false⟩ exClassifier exTodo exSynth
        exInputs ⟨[], []⟩ =
      pass6__migrateInputDeclarations ⟨false⟩ exClassifier (fun _ => [])
        exSynth exInputs ⟨[], []⟩ :=
  pass6_flag_false_no_todo_edits ⟨false⟩ exClassifier exTodo exSynth
    exInputs ⟨[], []⟩ rfl

/-- Witness for C6: the skip path on the incompatible entry. -/
theorem pass6_skip_path_frame_witness :
    ∃ st', pass6Step ⟨true⟩ exClassifier exTodo exSynth exMid
        (⟨exNodeB⟩, none) = .ok st' ∧
      st'.importMgr = exMid.importMgr ∧
      st'.filesWithMigratedInputs = exMid.filesWithMigratedInputs ∧
      st'.replacements = exMid.replacements ++
        (if (⟨true⟩ : Config).insertTodosForSkippedFields
          then exTodo ⟨exNodeB⟩ else []) ∧
      st'.filesWithIncompatibleInputs =
        setAdd exMid.filesWithIncompatibleInputs
          (InputDescriptor.mk exNodeB).node.sourceFile :=
  pass6_skip_path_frame ⟨true⟩ exClassifier exTodo exSynth exMid
    (⟨exNodeB⟩, none) rfl

/-- Witness for C7: after phase 1 has processed the first of the two
entries, no remove-import command has been issued. -/
theorem pass6_no_removals_during_phase1_witness :
    exMid.importMgr.removals = (⟨[], []⟩ : ImportManagerState).removals :=
  pass6_no_removals_during_phase1 ⟨true⟩ exClassifier exTodo exSynth
    exInputs [(⟨exNodeA⟩, some 1)] [(⟨exNodeB⟩, none)] ⟨[], []⟩ exMid
    rfl rfl

/-- Witness for the amended C8 at the concrete run. -/
theorem pass6_edits_disjoint_witness :
    editsDisjointFor 0 exFinal.replacements :=
  pass6_edits_disjoint ⟨true⟩ exClassifier exTodo exSynth exInputs
    ⟨[], []⟩ exFinal rfl (by decide) (by decide) (by decide) (by decide) 0

/-- Witness for C9 at the concrete run. -/
theorem pass6_removal_files_nodup_witness :
    (exFinal.importMgr.removals.map Prod.fst).Nodup :=
  pass6_removal_files_nodup ⟨true⟩ exClassifier exTodo exSynth exInputs
    ⟨[], []⟩ exFinal rfl rfl

/-- Witness for C10: the two concrete runs differing only in the flag. -/
theorem pass6_flag_noninterference_witness :
    exFinal.filesWithMigratedInputs =
      exFinalNoTodos.filesWithMigratedInputs ∧
    exFinal.filesWithIncompatibleInputs =
      exFinalNoTodos.filesWithIncompatibleInputs ∧
    exFinal.importMgr = exFinalNoTodos.importMgr ∧
    exFinalNoTodos.replacements =
      exInputs.flatMap (declContribution ⟨false⟩ exClassifier exTodo
        exSynth) ∧
    exFinalNoTodos.replacements.Sublist exFinal.replacements ∧
    (∀ f, (∃ e ∈ exInputs, exClassifier e.1 = true ∧
        e.1.node.sourceFile = f) →
      (f, "Input", "@angular/core") ∉ exFinalNoTodos.importMgr.removals) :=
  pass6_flag_noninterference exClassifier exTodo exSynth exInputs ⟨[], []⟩
    exFinal exFinalNoTodos rfl rfl rfl

end SignalMigration
